import Mathlib

/-!
# Verification of rbx-dom components against their specification

Shallow embedding of the sampled sources of `UpliftGames/rbx-dom`:

* `rbx_types/src/font.rs` — `FontWeight`, `FontStyle`, `Font` and their
  numeric conversions;
* `rbx_reflection_database/src/lib.rs` — locating and loading the local
  reflection database, with the bundled database as fallback;
* `rbx_xml/src/types/unique_id.rs` — the XML codec for `UniqueId`.

Machine integers are embedded as `Nat` (all operations here stay in range,
so no wrap-around modelling is needed).  External effects (environment
variables, the file system, MessagePack decoding) are embedded as explicit
state records.
-/

namespace RbxDom

/-! ## Fonts — `rbx_types/src/font.rs` -/

/-- `enum FontWeight` from `rbx_types/src/font.rs`. -/
inductive FontWeight where
  | thin
  | extraLight
  | light
  | regular
  | medium
  | semiBold
  | bold
  | extraBold
  | heavy
deriving DecidableEq, Repr

/-- `FontWeight::from_u16`; the argument models a `u16`. -/
def FontWeight.from_u16 (weight : Nat) : FontWeight :=
  match weight with
  | 100 => FontWeight.thin
  | 200 => FontWeight.extraLight
  | 300 => FontWeight.light
  | 400 => FontWeight.regular
  | 500 => FontWeight.medium
  | 600 => FontWeight.semiBold
  | 700 => FontWeight.bold
  | 800 => FontWeight.extraBold
  | 900 => FontWeight.heavy
  | _ => FontWeight.regular

/-- `FontWeight::as_u16`. -/
def FontWeight.as_u16 : FontWeight → Nat
  | FontWeight.thin => 100
  | FontWeight.extraLight => 200
  | FontWeight.light => 300
  | FontWeight.regular => 400
  | FontWeight.medium => 500
  | FontWeight.semiBold => 600
  | FontWeight.bold => 700
  | FontWeight.extraBold => 800
  | FontWeight.heavy => 900

/-- `enum FontStyle` from `rbx_types/src/font.rs`. -/
inductive FontStyle where
  | normal
  | italic
deriving DecidableEq, Repr

/-- `FontStyle::from_u8`; the argument models a `u8`. -/
def FontStyle.from_u8 (style : Nat) : FontStyle :=
  match style with
  | 0 => FontStyle.normal
  | 1 => FontStyle.italic
  | _ => FontStyle.normal

/-- `FontStyle::as_u8`. -/
def FontStyle.as_u8 : FontStyle → Nat
  | FontStyle.normal => 0
  | FontStyle.italic => 1

/-- `struct Font` from `rbx_types/src/font.rs`. -/
structure Font where
  family : String
  weight : FontWeight
  style : FontStyle
  cached_face_id : Option String
deriving DecidableEq, Repr

/-- `Font::new(family, weight, style)`. -/
def Font.new (family : String) (weight : FontWeight) (style : FontStyle) : Font :=
  { family := family, weight := weight, style := style, cached_face_id := none }

/-- `impl Default for Font` (`FontWeight::default()` is `Regular`,
`FontStyle::default()` is `Normal`). -/
def Font.default : Font :=
  { family := "rbxasset://fonts/families/SourceSansPro.json"
    weight := FontWeight.regular
    style := FontStyle.normal
    cached_face_id := none }

/-- `Font::regular(family)`: the given family with the remaining fields
taken from `Default::default()`. -/
def Font.regular (family : String) : Font :=
  { Font.default with family := family }

/-- `Font::from_font_enum`; the argument models a `u32`.  Arms are kept in
source order. -/
def Font.from_font_enum (value : Nat) : Option Font :=
  match value with
  | 0 => some (Font.regular ("rbxasset://fonts/families/LegacyArial.json"))
  | 1 => some (Font.regular ("rbxasset://fonts/families/Arial.json"))
  | 2 => some (Font.new ("rbxasset://fonts/families/Arial.json")
      FontWeight.bold FontStyle.normal)
  | 3 => some (Font.regular ("rbxasset://fonts/families/SourceSansPro.json"))
  | 4 => some (Font.new ("rbxasset://fonts/families/SourceSansPro.json")
      FontWeight.bold FontStyle.normal)
  | 16 => some (Font.new ("rbxasset://fonts/families/SourceSansPro.json")
      FontWeight.semiBold FontStyle.normal)
  | 5 => some (Font.new ("rbxasset://fonts/families/SourceSansPro.json")
      FontWeight.light FontStyle.normal)
  | 6 => some (Font.new ("rbxasset://fonts/families/SourceSansPro.json")
      FontWeight.regular FontStyle.italic)
  | 7 => some (Font.regular ("rbxasset://fonts/families/AccanthisADFStd.json"))
  | 8 => some (Font.regular ("rbxasset://fonts/families/Guru.json"))
  | 9 => some (Font.regular ("rbxasset://fonts/families/ComicNeueAngular.json"))
  | 10 => some (Font.regular ("rbxasset://fonts/families/Inconsolata.json"))
  | 11 => some (Font.regular ("rbxasset://fonts/families/HighwayGothic.json"))
  | 12 => some (Font.regular ("rbxasset://fonts/families/Zekton.json"))
  | 13 => some (Font.regular ("rbxasset://fonts/families/PressStart2P.json"))
  | 14 => some (Font.regular ("rbxasset://fonts/families/Balthazar.json"))
  | 15 => some (Font.regular ("rbxasset://fonts/families/RomanAntique.json"))
  | 17 => some (Font.regular ("rbxasset://fonts/families/GothamSSm.json"))
  | 18 => some (Font.new ("rbxasset://fonts/families/GothamSSm.json")
      FontWeight.medium FontStyle.normal)
  | 19 => some (Font.new ("rbxasset://fonts/families/GothamSSm.json")
      FontWeight.bold FontStyle.normal)
  | 20 => some (Font.new ("rbxasset://fonts/families/GothamSSm.json")
      FontWeight.heavy FontStyle.normal)
  | 21 => some (Font.regular ("rbxasset://fonts/families/AmaticSC.json"))
  | 22 => some (Font.regular ("rbxasset://fonts/families/Bangers.json"))
  | 23 => some (Font.regular ("rbxasset://fonts/families/Creepster.json"))
  | 24 => some (Font.regular ("rbxasset://fonts/families/DenkOne.json"))
  | 25 => some (Font.regular ("rbxasset://fonts/families/Fondamento.json"))
  | 26 => some (Font.regular ("rbxasset://fonts/families/FredokaOne.json"))
  | 27 => some (Font.regular ("rbxasset://fonts/families/GrenzeGotisch.json"))
  | 28 => some (Font.regular ("rbxasset://fonts/families/IndieFlower.json"))
  | 29 => some (Font.regular ("rbxasset://fonts/families/JosefinSans.json"))
  | 30 => some (Font.regular ("rbxasset://fonts/families/Jura.json"))
  | 31 => some (Font.regular ("rbxasset://fonts/families/Kalam.json"))
  | 32 => some (Font.regular ("rbxasset://fonts/families/LuckiestGuy.json"))
  | 33 => some (Font.regular ("rbxasset://fonts/families/Merriweather.json"))
  | 34 => some (Font.regular ("rbxasset://fonts/families/Michroma.json"))
  | 35 => some (Font.regular ("rbxasset://fonts/families/Nunito.json"))
  | 36 => some (Font.regular ("rbxasset://fonts/families/Oswald.json"))
  | 37 => some (Font.regular ("rbxasset://fonts/families/PatrickHand.json"))
  | 38 => some (Font.regular ("rbxasset://fonts/families/PermanentMarker.json"))
  | 39 => some (Font.regular ("rbxasset://fonts/families/Roboto.json"))
  | 40 => some (Font.regular ("rbxasset://fonts/families/RobotoCondensed.json"))
  | 41 => some (Font.regular ("rbxasset://fonts/families/RobotoMono.json"))
  | 42 => some (Font.regular ("rbxasset://fonts/families/Sarpanch.json"))
  | 43 => some (Font.regular ("rbxasset://fonts/families/SpecialElite.json"))
  | 44 => some (Font.regular ("rbxasset://fonts/families/TitilliumWeb.json"))
  | 45 => some (Font.regular ("rbxasset://fonts/families/Ubuntu.json"))
  | _ => none

/-- C8: `FontWeight::from_u16` and `FontStyle::from_u8` are total left
inverses of `as_u16`/`as_u8`: decoding the encoding of any weight or style
recovers it, every `u16` outside `{100, 200, ..., 900}` maps to `Regular`,
and every `u8` outside `{0, 1}` maps to `Normal`, so decoding never fails. -/
theorem font_numeric_codecs_total_left_inverse :
    (∀ w : FontWeight, FontWeight.from_u16 w.as_u16 = w) ∧
    (∀ s : FontStyle, FontStyle.from_u8 s.as_u8 = s) ∧
    (∀ n : Nat, n < 65536 →
      n ∉ [100, 200, 300, 400, 500, 600, 700, 800, 900] →
      FontWeight.from_u16 n = FontWeight.regular) ∧
    (∀ n : Nat, n < 256 → n ∉ [0, 1] → FontStyle.from_u8 n = FontStyle.normal) := by
  refine ⟨?_, ?_, ?_, ?_⟩
  · intro w; cases w <;> rfl
  · intro s; cases s <;> rfl
  · intro n _ hn
    unfold FontWeight.from_u16
    split <;> simp_all
  · intro n _ hn
    unfold FontStyle.from_u8
    split <;> simp_all

/-- Witness for C8 at concrete inputs. -/
theorem font_numeric_codecs_total_left_inverse_witness :
    FontWeight.from_u16 (FontWeight.bold.as_u16) = FontWeight.bold ∧
    FontWeight.from_u16 123 = FontWeight.regular ∧
    FontStyle.from_u8 7 = FontStyle.normal :=
  ⟨font_numeric_codecs_total_left_inverse.1 FontWeight.bold,
   font_numeric_codecs_total_left_inverse.2.2.1 123 (by decide) (by decide),
   font_numeric_codecs_total_left_inverse.2.2.2 7 (by decide) (by decide)⟩

/-- C9: `Font::from_font_enum(v)` returns `Some` for every `v ≤ 45`, `None`
for every `v > 45`, and every returned font has `cached_face_id = None`. -/
theorem from_font_enum_range_and_no_cached_face :
    (∀ v : Nat, v ≤ 45 → (Font.from_font_enum v).isSome = true) ∧
    (∀ v : Nat, 45 < v → Font.from_font_enum v = none) ∧
    (∀ v : Nat, ∀ f : Font, Font.from_font_enum v = some f →
      f.cached_face_id = none) := by
  refine ⟨?_, ?_, ?_⟩
  · decide
  · intro v hv
    unfold Font.from_font_enum
    split <;> first | rfl | omega
  · intro v f h
    unfold Font.from_font_enum at h
    split at h <;> cases h <;> rfl

/-- Witness for C9 at concrete inputs. -/
theorem from_font_enum_range_and_no_cached_face_witness :
    (Font.from_font_enum 16).isSome = true ∧
    Font.from_font_enum 46 = none ∧
    (Font.regular ("rbxasset://fonts/families/Ubuntu.json")).cached_face_id
      = none :=
  ⟨from_font_enum_range_and_no_cached_face.1 16 (by decide),
   from_font_enum_range_and_no_cached_face.2.1 46 (by decide),
   from_font_enum_range_and_no_cached_face.2.2 45 _ (by rfl)⟩

/-- C10: `Font::default()` is the Source Sans Pro regular/normal font with
no cached face id, and equals `Font::from_font_enum(3)`. -/
theorem font_default_is_source_sans_pro :
    Font.default =
      { family := "rbxasset://fonts/families/SourceSansPro.json"
        weight := FontWeight.regular
        style := FontStyle.normal
        cached_face_id := none } ∧
    Font.from_font_enum 3 = some Font.default :=
  ⟨rfl, rfl⟩

/-! ## Reflection database — `rbx_reflection_database/src/lib.rs` -/

/-- Modelled from the spec: the `ClassDescriptor` type lives in the
`rbx_reflection` crate, which is not among the sampled sources.  The spec
describes it as "`name`, optional `superclass` (name-based weak reference
resolved via schema lookup, not an owning pointer), mapping from property
name to `PropertyDescriptor`"; only the name and superclass fields are
relevant to the claims here. -/
structure ClassDescriptor where
  name : String
  superclass : Option String
deriving DecidableEq, Repr

/-- Modelled from the spec: "**ReflectionDatabase**: mapping class name →
ClassDescriptor", with the version quadruple used by the crate's tests. -/
structure ReflectionDatabase where
  version : List Nat
  classes : List (String × ClassDescriptor)
deriving DecidableEq, Repr

/-- Modelled from the spec: `lookup(class_name) -> Option ClassDescriptor`,
the map lookup `database.classes.get(name)` used by `superclasses_iter`. -/
def ReflectionDatabase.findClass (db : ReflectionDatabase) (n : String) :
    Option ClassDescriptor :=
  (db.classes.find? (fun p => p.1 == n)).map (fun p => p.2)

/-- Modelled from the spec: `superclasses_iter` of the `rbx_reflection`
crate is not among the sampled sources (only its test
`superclasses_iter_test` is).  The spec describes it as "`superclasses_of
(class) -> lazy sequence of ClassDescriptor, self-first, ending with no
ancestor`", each named superclass resolved by schema lookup.
`superclasses_iter_nth db c n` is the element the lazy iterator yields at
position `n`, or `none` once the iterator is exhausted. -/
def superclasses_iter_nth (db : ReflectionDatabase) :
    ClassDescriptor → Nat → Option ClassDescriptor
  | c, 0 => some c
  | c, n + 1 =>
    match c.superclass with
    | none => none
    | some s =>
      match db.findClass s with
      | none => none
      | some p => superclasses_iter_nth db p n

/-- Outcome of looking at one file-system path: the file is absent
(`path.exists()` is false), present but unreadable (`fs::read` fails with
an I/O error), or present with some byte content. -/
inductive FileContent where
  | absent
  | unreadable (msg : String)
  | bytes (content : List Nat)
deriving DecidableEq, Repr

/-- The crate's `Error` type (declared in its `error` module): either a
propagated I/O failure or a MessagePack decoding failure. -/
inductive DbError where
  | io (msg : String)
  | decode (msg : String)
deriving DecidableEq, Repr

/-- The ambient state read by `get_local_location`/`get_local`: the
environment (`env::var`), the base directory (`dirs::home_dir` on Linux,
`dirs::data_local_dir` elsewhere; `none` when it cannot be determined),
the file system and the MessagePack decoder (`rmp_serde::from_slice`).
The embedded bundled database (`BUNDLED_DATABASE`, decoded from bytes
included at build time) is a per-process constant, so it is passed to
`get` separately rather than as part of this mutable ambient state. -/
structure World where
  envVar : String → Option String
  dataDir : Option String
  file : String → FileContent
  decodeDb : List Nat → Except String ReflectionDatabase

/-- `OVERRIDE_PATH_VAR` constant from the source. -/
def OVERRIDE_PATH_VAR : String := "RBX_DATABASE"

/-- `LOCAL_DIR_NAME` constant from the source. -/
def LOCAL_DIR_NAME : String := ".rbxreflection"

/-- The file name pushed onto the local directory by
`get_local_location`. -/
def DATABASE_FILE_NAME : String := "database.msgpack"

/-- `PathBuf::push`, embedding paths as strings. -/
def pushPath (p : String) (c : String) : String := p ++ "/" ++ c

/-- `get_local_location()` from the source: the `RBX_DATABASE` environment
variable if set, else the OS base directory with `.rbxreflection` and
`database.msgpack` pushed onto it, else `None`. -/
def get_local_location (w : World) : Option String :=
  match w.envVar OVERRIDE_PATH_VAR with
  | some location => some location
  | none =>
    match w.dataDir with
    | none => none
    | some home => some (pushPath (pushPath home LOCAL_DIR_NAME) DATABASE_FILE_NAME)

/-- The initializer closure of `get_local()` (the body passed to
`LOCAL_DATABASE.get_or_init`): if a location is computed and a file exists
there, read and decode it; otherwise `Ok(None)`. -/
def load_local (w : World) : Except DbError (Option ReflectionDatabase) :=
  match get_local_location w with
  | some path =>
    match w.file path with
    | FileContent.absent => Except.ok none
    | FileContent.unreadable e => Except.error (DbError.io e)
    | FileContent.bytes b =>
      match w.decodeDb b with
      | Except.error e => Except.error (DbError.decode e)
      | Except.ok database => Except.ok (some database)
  | none => Except.ok none

/-- The `LOCAL_DATABASE: OnceLock<ResultOption<ReflectionDatabase>>` cell:
`none` while uninitialized, `some r` once `get_or_init` has stored `r`. -/
def ProcessCell : Type :=
  Option (Except DbError (Option ReflectionDatabase))

/-- `get_local()` from the source: run the initializer at most once via the
`OnceLock`, then return the stored result (errors are cloned out). -/
def get_local (w : World) (cell : ProcessCell) :
    Except DbError (Option ReflectionDatabase) × ProcessCell :=
  match cell with
  | some r => (r, some r)
  | none => (load_local w, some (load_local w))

/-- `get_bundled()` from the source: returns the embedded static
`BUNDLED_DATABASE`, here the explicit per-process constant `bundled`. -/
def get_bundled (bundled : ReflectionDatabase) : ReflectionDatabase := bundled

/-- `get()` from the source: `Ok(get_local()?.unwrap_or(&BUNDLED_DATABASE))`. -/
def get (w : World) (bundled : ReflectionDatabase) (cell : ProcessCell) :
    Except DbError ReflectionDatabase × ProcessCell :=
  let r := get_local w cell
  match r.1 with
  | Except.error e => (Except.error e, r.2)
  | Except.ok (some database) => (Except.ok database, r.2)
  | Except.ok none => (Except.ok (get_bundled bundled), r.2)

/-- The empty reflection database, used by concrete witness states. -/
def dbEmpty : ReflectionDatabase :=
  { version := [0, 0, 0, 0], classes := [] }

/-- Witness state: no environment override and no base directory. -/
def worldNoDir : World :=
  { envVar := fun _ => none
    dataDir := none
    file := fun _ => FileContent.absent
    decodeDb := fun _ => Except.ok dbEmpty }

/-- Witness state: override set, but no file at the named path. -/
def worldAbsent : World :=
  { envVar := fun _ => some ("/p/database.msgpack")
    dataDir := none
    file := fun _ => FileContent.absent
    decodeDb := fun _ => Except.ok dbEmpty }

/-- Witness state: override set, file present but unreadable. -/
def worldBadFile : World :=
  { envVar := fun _ => some ("/p/database.msgpack")
    dataDir := none
    file := fun _ => FileContent.unreadable ("io failure")
    decodeDb := fun _ => Except.ok dbEmpty }

/-- Witness state: override set, file present and valid. -/
def worldGood : World :=
  { envVar := fun _ => some ("/p/database.msgpack")
    dataDir := none
    file := fun _ => FileContent.bytes [1]
    decodeDb := fun _ => Except.ok dbEmpty }

/-- Witness state: no override, base directory available. -/
def worldDefaultDir : World :=
  { envVar := fun _ => none
    dataDir := some ("/home/user")
    file := fun _ => FileContent.absent
    decodeDb := fun _ => Except.ok dbEmpty }

/-- C4: `get_local_location()` returns the value of the `RBX_DATABASE`
environment variable as a path whenever that variable is set, and only
when it is unset falls back to the base directory joined with
`.rbxreflection/database.msgpack` (or `None` when no base directory can be
determined). -/
theorem get_local_location_env_precedence (w : World) :
    (∀ v, w.envVar OVERRIDE_PATH_VAR = some v → get_local_location w = some v) ∧
    (w.envVar OVERRIDE_PATH_VAR = none →
      get_local_location w =
        w.dataDir.map
          (fun home => pushPath (pushPath home LOCAL_DIR_NAME) DATABASE_FILE_NAME)) := by
  constructor
  · intro v hv
    simp [get_local_location, hv]
  · intro h
    cases hd : w.dataDir <;> simp [get_local_location, h, hd]

/-- Witness for C4 at concrete states. -/
theorem get_local_location_env_precedence_witness :
    get_local_location worldGood = some ("/p/database.msgpack") ∧
    get_local_location worldDefaultDir =
      some ("/home/user/.rbxreflection/database.msgpack") ∧
    get_local_location worldNoDir = none :=
  ⟨(get_local_location_env_precedence worldGood).1 _ rfl,
   (get_local_location_env_precedence worldDefaultDir).2 rfl,
   (get_local_location_env_precedence worldNoDir).2 rfl⟩

/-- C3: `get_local()`'s loading step is a three-state result: absence of a
computed location or of a file there yields `Ok(None)` (never an error),
an error arises only when a file is present at the computed location but
cannot be read or decoded, and a present, readable, valid file yields
`Ok(Some(database))`. -/
theorem load_local_three_state (w : World) :
    (get_local_location w = none → load_local w = Except.ok none) ∧
    (∀ p, get_local_location w = some p → w.file p = FileContent.absent →
      load_local w = Except.ok none) ∧
    (∀ e, load_local w = Except.error e →
      ∃ p, get_local_location w = some p ∧ w.file p ≠ FileContent.absent) ∧
    (∀ p b database, get_local_location w = some p →
      w.file p = FileContent.bytes b → w.decodeDb b = Except.ok database →
      load_local w = Except.ok (some database)) := by
  refine ⟨?_, ?_, ?_, ?_⟩
  · intro h
    simp [load_local, h]
  · intro p hp hf
    simp [load_local, hp, hf]
  · intro e he
    cases hloc : get_local_location w with
    | none => simp [load_local, hloc] at he
    | some p =>
      refine ⟨p, rfl, fun hab => ?_⟩
      simp [load_local, hloc, hab] at he
  · intro p b database hp hf hd
    simp [load_local, hp, hf, hd]

/-- Witness for C3 at concrete states. -/
theorem load_local_three_state_witness :
    load_local worldNoDir = Except.ok none ∧
    load_local worldAbsent = Except.ok none ∧
    (get_local_location worldBadFile = some ("/p/database.msgpack") ∧
      worldBadFile.file ("/p/database.msgpack") ≠ FileContent.absent) ∧
    load_local worldGood = Except.ok (some dbEmpty) := by
  refine ⟨(load_local_three_state worldNoDir).1 rfl,
    (load_local_three_state worldAbsent).2.1 _ rfl rfl,
    ?_,
    (load_local_three_state worldGood).2.2.2 _ [1] dbEmpty rfl rfl rfl⟩
  have h := (load_local_three_state worldBadFile).2.2.1
    (DbError.io ("io failure")) rfl
  obtain ⟨p, hp, hf⟩ := h
  cases hp
  exact ⟨rfl, hf⟩

/-- C5: `get()` returns the local database when `get_local()` finds one,
the bundled database exactly when `get_local()` finds none, and an error
exactly when `get_local()` errors — the bundled snapshot never masks a
local loading error. -/
theorem get_falls_back_to_bundled (w : World) (bundled : ReflectionDatabase)
    (cell : ProcessCell) :
    ((get_local w cell).1 = Except.ok none →
      (get w bundled cell).1 = Except.ok (get_bundled bundled)) ∧
    (∀ database, (get_local w cell).1 = Except.ok (some database) →
      (get w bundled cell).1 = Except.ok database) ∧
    (∀ e, (get w bundled cell).1 = Except.error e ↔
      (get_local w cell).1 = Except.error e) := by
  refine ⟨?_, ?_, ?_⟩
  · intro h
    simp [get, h]
  · intro database h
    simp [get, h]
  · intro e
    cases h : (get_local w cell).1 with
    | error e₂ => simp [get, h]
    | ok opt => cases opt <;> simp [get, h]

/-- Witness for C5 at concrete states. -/
theorem get_falls_back_to_bundled_witness :
    (get worldNoDir dbEmpty none).1 = Except.ok (get_bundled dbEmpty) ∧
    (get worldNoDir dbEmpty (some (Except.ok (some dbEmpty)))).1
      = Except.ok dbEmpty :=
  ⟨(get_falls_back_to_bundled worldNoDir dbEmpty none).1 rfl,
   (get_falls_back_to_bundled worldNoDir dbEmpty
      (some (Except.ok (some dbEmpty)))).2.1 dbEmpty rfl⟩

/-- C7: the local database is loaded at most once per process: after any
call to `get_local()` (or `get()`), a second call — even under a changed
environment or file system `w2` — returns exactly the first call's
result and leaves the cell unchanged. -/
theorem local_database_loaded_once (w1 w2 : World)
    (bundled : ReflectionDatabase) (cell : ProcessCell) :
    get_local w2 (get_local w1 cell).2 = get_local w1 cell ∧
    get w2 bundled (get w1 bundled cell).2 = get w1 bundled cell := by
  constructor
  · cases cell <;> rfl
  · cases cell with
    | some r =>
      cases r with
      | error e => rfl
      | ok opt => cases opt <;> rfl
    | none =>
      cases h : load_local w1 with
      | error e => simp [get, get_local, h]
      | ok opt => cases opt <;> simp [get, get_local, h]

/-- Unfolding equation for `superclasses_iter_nth` at a successor index. -/
theorem superclasses_iter_nth_succ (db : ReflectionDatabase)
    (c : ClassDescriptor) (n : Nat) :
    superclasses_iter_nth db c (n + 1) =
      match c.superclass with
      | none => none
      | some s =>
        match db.findClass s with
        | none => none
        | some p => superclasses_iter_nth db p n := rfl

/-- C6: for a class `a` whose superclass chain resolves through the schema
as `a ← b ← c ← r` with `r` having no superclass, the superclasses
sequence yields exactly `a, b, c, r` at positions 0..3 — self first, each
named superclass resolved by schema lookup — and yields nothing from
position 4 on. -/
theorem superclasses_iter_chain (db : ReflectionDatabase)
    (a b c r : ClassDescriptor) (bn cn rn : String)
    (hab : a.superclass = some bn) (hb : db.findClass bn = some b)
    (hbc : b.superclass = some cn) (hc : db.findClass cn = some c)
    (hcr : c.superclass = some rn) (hr : db.findClass rn = some r)
    (hroot : r.superclass = none) :
    superclasses_iter_nth db a 0 = some a ∧
    superclasses_iter_nth db a 1 = some b ∧
    superclasses_iter_nth db a 2 = some c ∧
    superclasses_iter_nth db a 3 = some r ∧
    ∀ m : Nat, superclasses_iter_nth db a (m + 4) = none := by
  refine ⟨rfl, ?_, ?_, ?_, ?_⟩
  · simp [superclasses_iter_nth_succ, hab, hb, superclasses_iter_nth]
  · simp [superclasses_iter_nth_succ, hab, hb, hbc, hc, superclasses_iter_nth]
  · simp [superclasses_iter_nth_succ, hab, hb, hbc, hc, hcr, hr,
      superclasses_iter_nth]
  · intro m
    show superclasses_iter_nth db a (m + 3 + 1) = none
    rw [superclasses_iter_nth_succ]
    simp only [hab, hb]
    show superclasses_iter_nth db b (m + 2 + 1) = none
    rw [superclasses_iter_nth_succ]
    simp only [hbc, hc]
    show superclasses_iter_nth db c (m + 1 + 1) = none
    rw [superclasses_iter_nth_succ]
    simp only [hcr, hr]
    show superclasses_iter_nth db r (m + 1) = none
    rw [superclasses_iter_nth_succ]
    simp only [hroot]

/-- `Part` class descriptor for the C6 witness chain. -/
def cdPart : ClassDescriptor :=
  { name := "Part", superclass := some ("BasePart") }

/-- `BasePart` class descriptor for the C6 witness chain. -/
def cdBasePart : ClassDescriptor :=
  { name := "BasePart", superclass := some ("PVInstance") }

/-- `PVInstance` class descriptor for the C6 witness chain. -/
def cdPVInstance : ClassDescriptor :=
  { name := "PVInstance", superclass := some ("Instance") }

/-- Root class descriptor (no superclass) for the C6 witness chain. -/
def cdInstance : ClassDescriptor :=
  { name := "Instance", superclass := none }

/-- A concrete schema holding the chain Part ← BasePart ← PVInstance ←
Instance. -/
def dbChain : ReflectionDatabase :=
  { version := [0, 0, 0, 0]
    classes :=
      [ (cdPart.name, cdPart), (cdBasePart.name, cdBasePart),
        (cdPVInstance.name, cdPVInstance), (cdInstance.name, cdInstance) ] }

/-- Witness for C6 on the concrete chain. -/
theorem superclasses_iter_chain_witness :
    superclasses_iter_nth dbChain cdPart 0 = some cdPart ∧
    superclasses_iter_nth dbChain cdPart 1 = some cdBasePart ∧
    superclasses_iter_nth dbChain cdPart 2 = some cdPVInstance ∧
    superclasses_iter_nth dbChain cdPart 3 = some cdInstance ∧
    superclasses_iter_nth dbChain cdPart 4 = none := by
  have h := superclasses_iter_chain dbChain cdPart cdBasePart cdPVInstance
    cdInstance cdBasePart.name cdPVInstance.name cdInstance.name
    rfl (by decide) rfl (by decide) rfl (by decide) rfl
  exact ⟨h.1, h.2.1, h.2.2.1, h.2.2.2.1, h.2.2.2.2 0⟩

/-! ## UniqueId XML codec — `rbx_xml/src/types/unique_id.rs` -/

/-- Modelled from the spec: the `UniqueId` value type lives in `rbx_types`
(re-exported through `rbx_dom_weak`), which is not among the sampled
sources.  The spec describes it as "an opaque unique identifier with
index/timestamp/random components"; the components are embedded as the
natural numbers denoted by a `u32`, a `u32`, and the 64-bit pattern of an
`i64`. -/
structure UniqueId where
  index : Nat
  time : Nat
  random : Nat
deriving DecidableEq, Repr

/-- Component ranges of a `UniqueId`: `u32`, `u32`, 64-bit pattern. -/
def UniqueId.InRange (u : UniqueId) : Prop :=
  u.index < 2 ^ 32 ∧ u.time < 2 ^ 32 ∧ u.random < 2 ^ 64

/-- The lower-case hex digit character for a value below 16. -/
def hexDigit (n : Nat) : Char :=
  if n < 10 then Char.ofNat (48 + n) else Char.ofNat (87 + n)

/-- Numeric value of a hex digit character (either case), `none` for any
other character. -/
def hexVal (c : Char) : Option Nat :=
  if 48 ≤ c.toNat ∧ c.toNat ≤ 57 then some (c.toNat - 48)
  else if 97 ≤ c.toNat ∧ c.toNat ≤ 102 then some (c.toNat - 87)
  else if 65 ≤ c.toNat ∧ c.toNat ≤ 70 then some (c.toNat - 55)
  else none

/-- Fixed-width big-endian hex digits of `n` (the `{:0wx}` format). -/
def toHexPad : Nat → Nat → List Char
  | 0, _ => []
  | w + 1, n => toHexPad w (n / 16) ++ [hexDigit (n % 16)]

/-- Reads hex digits most-significant first into an accumulator. -/
def fromHexAux (acc : Nat) : List Char → Option Nat
  | [] => some acc
  | c :: cs =>
    match hexVal c with
    | none => none
    | some d => fromHexAux (acc * 16 + d) cs

/-- The number denoted by a list of hex digits, `none` on any non-digit. -/
def fromHex (cs : List Char) : Option Nat := fromHexAux 0 cs

/-- Modelled from the spec: `UniqueId`'s `Display` implementation is not
among the sampled sources; the identifier is formatted as 32 fixed-width
hex digits covering the index (8), timestamp (8) and random (16)
components. -/
def UniqueId.to_string (u : UniqueId) : String :=
  String.mk (toHexPad 8 u.index ++ (toHexPad 8 u.time ++ toHexPad 16 u.random))

/-- Modelled from the spec: `UniqueIdError`, the parse failure reported by
`UniqueId`'s `FromStr` implementation (not among the sampled sources):
wrong total length, or a character that is not a hex digit. -/
inductive UniqueIdError where
  | invalidLength (len : Nat)
  | invalidDigit
deriving DecidableEq, Repr

/-- `UniqueIdError`'s display message (`value.to_string()` in the source's
`From<UniqueIdError> for DecodeErrorKind`). -/
def UniqueIdError.message : UniqueIdError → String
  | UniqueIdError.invalidLength _ => "string length was not 32 characters"
  | UniqueIdError.invalidDigit => "string contained an invalid hex digit"

/-- Modelled from the spec: `UniqueId`'s `FromStr` implementation (the
`content.parse()` call of `read_xml`): 32 hex digits split 8/8/16 into the
index, timestamp and random components. -/
def UniqueId.parse (s : String) : Except UniqueIdError UniqueId :=
  let cs := s.data
  if cs.length = 32 then
    match fromHex (cs.take 8), fromHex ((cs.drop 8).take 8),
        fromHex (cs.drop 16) with
    | some i, some t, some r =>
      Except.ok { index := i, time := t, random := r }
    | _, _, _ => Except.error UniqueIdError.invalidDigit
  else Except.error (UniqueIdError.invalidLength cs.length)

/-- One event of the document event stream (spec §4.2): element start,
text, or element end. -/
inductive XmlEvent where
  | elemStart (tag : String)
  | text (s : String)
  | elemEnd (tag : String)
deriving DecidableEq, Repr

/-- The pull reader `XmlEventReader`: the remaining events plus the
current stream position (events consumed so far, standing in for the
line/column the real reader tracks). -/
structure XmlEventReader where
  events : List XmlEvent
  pos : Nat
deriving DecidableEq, Repr

/-- `DecodeErrorKind` (only the constructors these claims touch). -/
inductive DecodeErrorKind where
  | invalidPropertyData (property_type : String) (error : String)
  | unexpectedEof
  | unexpectedToken
deriving DecidableEq, Repr

/-- A `DecodeError`: a kind tagged with a stream position. -/
structure DecodeError where
  kind : DecodeErrorKind
  pos : Nat
deriving DecidableEq, Repr

/-- `reader.error(e)`: wrap a kind with the reader's current position
(spec: "Every error raised by the reader carries the current line/column
for diagnostics"). -/
def XmlEventReader.error (r : XmlEventReader) (k : DecodeErrorKind) :
    DecodeError :=
  { kind := k, pos := r.pos }

/-- `impl From<UniqueIdError> for DecodeErrorKind` from the source: an
`InvalidPropertyData` with property type `"UniqueId"` and the parse
error's message. -/
def DecodeErrorKind.ofUniqueIdError (e : UniqueIdError) : DecodeErrorKind :=
  DecodeErrorKind.invalidPropertyData ("UniqueId") e.message

/-- Modelled from the spec: the reader's `read_characters()`, which
"concatenates text content up to the matching end tag" (spec §4.2); it
stops at the end element without consuming it, and fails on end-of-input
or on a nested element start.  This helper works on the raw event list
with the running position. -/
def read_characters_list : List XmlEvent → Nat →
    Except DecodeError (String × List XmlEvent × Nat)
  | [], p => Except.error { kind := DecodeErrorKind.unexpectedEof, pos := p }
  | XmlEvent.text s :: rest, p =>
    match read_characters_list rest (p + 1) with
    | Except.ok (acc, rest2, p2) => Except.ok (s ++ acc, rest2, p2)
    | Except.error e => Except.error e
  | XmlEvent.elemEnd t :: rest, p =>
    Except.ok ("", XmlEvent.elemEnd t :: rest, p)
  | XmlEvent.elemStart _ :: _, p =>
    Except.error { kind := DecodeErrorKind.unexpectedToken, pos := p }

/-- `reader.read_characters()` on the reader state. -/
def read_characters (r : XmlEventReader) :
    Except DecodeError (String × XmlEventReader) :=
  match read_characters_list r.events r.pos with
  | Except.ok (s, rest, p) => Except.ok (s, { events := rest, pos := p })
  | Except.error e => Except.error e

/-- The reader's `expect_start(tag)` (spec §4.2): consume an element start
with the given tag, or fail with a position-tagged error. -/
def expect_start (tag : String) (r : XmlEventReader) :
    Except DecodeError XmlEventReader :=
  match r.events with
  | XmlEvent.elemStart t :: rest =>
    if t = tag then Except.ok { events := rest, pos := r.pos + 1 }
    else Except.error (r.error DecodeErrorKind.unexpectedToken)
  | [] => Except.error (r.error DecodeErrorKind.unexpectedEof)
  | _ => Except.error (r.error DecodeErrorKind.unexpectedToken)

/-- The reader's `expect_end(tag)` (spec §4.2): consume an element end
with the given tag, or fail with a position-tagged error. -/
def expect_end (tag : String) (r : XmlEventReader) :
    Except DecodeError XmlEventReader :=
  match r.events with
  | XmlEvent.elemEnd t :: rest =>
    if t = tag then Except.ok { events := rest, pos := r.pos + 1 }
    else Except.error (r.error DecodeErrorKind.unexpectedToken)
  | [] => Except.error (r.error DecodeErrorKind.unexpectedEof)
  | _ => Except.error (r.error DecodeErrorKind.unexpectedToken)

/-- `UniqueId::read_xml` from the source: read the element's character
content and parse it, wrapping a parse failure through `reader.error`
(via the `From<UniqueIdError>` conversion). -/
def UniqueId.read_xml (reader : XmlEventReader) :
    Except DecodeError (UniqueId × XmlEventReader) :=
  match read_characters reader with
  | Except.error e => Except.error e
  | Except.ok (content, reader2) =>
    match UniqueId.parse content with
    | Except.ok v => Except.ok (v, reader2)
    | Except.error e =>
      Except.error (reader2.error (DecodeErrorKind.ofUniqueIdError e))

/-- `XML_TAG_NAME` for `UniqueId` from the source. -/
def XML_TAG_NAME : String := "UniqueId"

/-- The push writer's `write_value(s)` convenience (spec §4.2): a
start/text/end triple under the given tag. -/
def write_value (tag : String) (s : String) : List XmlEvent :=
  [XmlEvent.elemStart tag, XmlEvent.text s, XmlEvent.elemEnd tag]

/-- `UniqueId::write_xml` from the source:
`writer.write_value(&self.to_string())` under the `UniqueId` tag. -/
def UniqueId.write_xml (u : UniqueId) : List XmlEvent :=
  write_value XML_TAG_NAME u.to_string

/-- Modelled from the spec: reading one whole property element combines
the reader's `expect_start`/`expect_end` with the codec's `read_xml`
(spec §4.1–§4.2); the framework driving the codecs is not among the
sampled sources. -/
def UniqueId.read_outer_xml (r : XmlEventReader) :
    Except DecodeError (UniqueId × XmlEventReader) :=
  match expect_start XML_TAG_NAME r with
  | Except.error e => Except.error e
  | Except.ok r1 =>
    match UniqueId.read_xml r1 with
    | Except.error e => Except.error e
    | Except.ok (v, r2) =>
      match expect_end XML_TAG_NAME r2 with
      | Except.error e => Except.error e
      | Except.ok r3 => Except.ok (v, r3)

/-- Reading back the hex digit of a value below 16 recovers it. -/
theorem hexVal_hexDigit {d : Nat} (h : d < 16) : hexVal (hexDigit d) = some d := by
  interval_cases d <;> decide

/-- `toHexPad` produces exactly the requested number of digits. -/
theorem toHexPad_length (w : Nat) : ∀ n : Nat, (toHexPad w n).length = w := by
  induction w with
  | zero => intro n; rfl
  | succ k ih => intro n; simp [toHexPad, ih]

/-- `fromHexAux` processes an appended digit list in two stages. -/
theorem fromHexAux_append (acc : Nat) (xs ys : List Char) :
    fromHexAux acc (xs ++ ys) =
      match fromHexAux acc xs with
      | none => none
      | some a => fromHexAux a ys := by
  induction xs generalizing acc with
  | nil => rfl
  | cons c cs ih =>
    simp only [List.cons_append, fromHexAux]
    cases hexVal c with
    | none => rfl
    | some d => exact ih _

/-- Reading back a fixed-width hex body recovers the encoded value on top
of the accumulator. -/
theorem fromHexAux_toHexPad (w : Nat) : ∀ n acc : Nat, n < 16 ^ w →
    fromHexAux acc (toHexPad w n) = some (acc * 16 ^ w + n) := by
  induction w with
  | zero =>
    intro n acc h
    have hn : n = 0 := by simpa using h
    subst hn
    simp [toHexPad, fromHexAux]
  | succ k ih =>
    intro n acc h
    have hdiv : n / 16 < 16 ^ k := by
      have h16 : n < 16 ^ k * 16 := by
        have hp := pow_succ 16 k
        omega
      exact (Nat.div_lt_iff_lt_mul (by norm_num)).mpr h16
    rw [toHexPad, fromHexAux_append, ih _ _ hdiv]
    have hmod : n % 16 < 16 := Nat.mod_lt n (by norm_num)
    simp only [fromHexAux, hexVal_hexDigit hmod]
    have key : 16 * (n / 16) + n % 16 = n := Nat.div_add_mod n 16
    congr 1
    calc (acc * 16 ^ k + n / 16) * 16 + n % 16
        = acc * (16 ^ k * 16) + (16 * (n / 16) + n % 16) := by ring
      _ = acc * 16 ^ (k + 1) + n := by rw [key, pow_succ]

/-- Reading back a fixed-width hex body recovers the encoded value. -/
theorem fromHex_toHexPad (w n : Nat) (h : n < 16 ^ w) :
    fromHex (toHexPad w n) = some n := by
  unfold fromHex
  rw [fromHexAux_toHexPad w n 0 h]
  simp

/-- Projection of the string constructor. -/
theorem data_mk (cs : List Char) : (String.mk cs).data = cs := rfl

/-- Parsing the printed form of an in-range `UniqueId` recovers it. -/
theorem UniqueId.parse_to_string (u : UniqueId) (h : u.InRange) :
    UniqueId.parse u.to_string = Except.ok u := by
  obtain ⟨hi, ht, hr⟩ := h
  have e1 : (16 : Nat) ^ 8 = 2 ^ 32 := by norm_num
  have e2 : (16 : Nat) ^ 16 = 2 ^ 64 := by norm_num
  have hi' : u.index < 16 ^ 8 := by rw [e1]; exact hi
  have ht' : u.time < 16 ^ 8 := by rw [e1]; exact ht
  have hr' : u.random < 16 ^ 16 := by rw [e2]; exact hr
  have htake : (toHexPad 8 u.index ++ (toHexPad 8 u.time ++ toHexPad 16 u.random)).take 8
      = toHexPad 8 u.index := List.take_left' (toHexPad_length 8 u.index)
  have hdrop8 : (toHexPad 8 u.index ++ (toHexPad 8 u.time ++ toHexPad 16 u.random)).drop 8
      = toHexPad 8 u.time ++ toHexPad 16 u.random :=
    List.drop_left' (toHexPad_length 8 u.index)
  have htake2 : ((toHexPad 8 u.index ++ (toHexPad 8 u.time ++ toHexPad 16 u.random)).drop 8).take 8
      = toHexPad 8 u.time := by
    rw [hdrop8]; exact List.take_left' (toHexPad_length 8 u.time)
  have hdrop16 : (toHexPad 8 u.index ++ (toHexPad 8 u.time ++ toHexPad 16 u.random)).drop 16
      = toHexPad 16 u.random := by
    have hdd : (toHexPad 8 u.index ++ (toHexPad 8 u.time ++ toHexPad 16 u.random)).drop 16
        = ((toHexPad 8 u.index ++ (toHexPad 8 u.time ++ toHexPad 16 u.random)).drop 8).drop 8 := by
      rw [List.drop_drop]
    rw [hdd, hdrop8]
    exact List.drop_left' (toHexPad_length 8 u.time)
  have hlen : (toHexPad 8 u.index ++ (toHexPad 8 u.time ++ toHexPad 16 u.random)).length = 32 := by
    simp [toHexPad_length]
  unfold UniqueId.to_string UniqueId.parse
  simp only [data_mk]
  rw [if_pos hlen, htake, htake2, hdrop16, fromHex_toHexPad 8 u.index hi',
    fromHex_toHexPad 8 u.time ht', fromHex_toHexPad 16 u.random hr']

/-- C1: writing a (component-in-range) `UniqueId` with `write_xml` — which
emits `to_string` as a start/text/end triple — and reading the resulting
stream back (the reader consumes the start tag, `read_xml` reads and
parses the character content, the end tag is consumed) yields `Ok` of the
same value: the codec-level round trip for the `UniqueId` property kind. -/
theorem unique_id_xml_roundtrip (u : UniqueId) (h : u.InRange) (p : Nat) :
    UniqueId.read_outer_xml { events := u.write_xml, pos := p } =
      Except.ok (u, { events := [], pos := p + 3 }) := by
  unfold UniqueId.read_outer_xml UniqueId.write_xml write_value
  simp [expect_start, expect_end, UniqueId.read_xml, read_characters,
    read_characters_list, XML_TAG_NAME, UniqueId.parse_to_string u h,
    String.append_empty]

/-- Witness for C1 at a concrete identifier. -/
theorem unique_id_xml_roundtrip_witness :
    UniqueId.read_outer_xml
        { events := UniqueId.write_xml { index := 5, time := 6, random := 7 }
          pos := 0 } =
      Except.ok ({ index := 5, time := 6, random := 7 },
        { events := [], pos := 3 }) :=
  unique_id_xml_roundtrip { index := 5, time := 6, random := 7 }
    (by refine ⟨?_, ?_, ?_⟩ <;> norm_num) 0

/-- C2: given that the reader yields character content `s` (leaving the
reader at `r2`), `read_xml` succeeds exactly when `s` parses as a
`UniqueId`; on a parse failure it returns a `DecodeError` whose kind is
`InvalidPropertyData` with property type `"UniqueId"` and the parse
error's message, tagged with the reader's current position via
`reader.error`. -/
theorem unique_id_read_xml_parse_errors (r : XmlEventReader) (s : String)
    (r2 : XmlEventReader) (hrc : read_characters r = Except.ok (s, r2)) :
    ((∃ v rest, UniqueId.read_xml r = Except.ok (v, rest)) ↔
      ∃ v, UniqueId.parse s = Except.ok v) ∧
    (∀ v, UniqueId.parse s = Except.ok v →
      UniqueId.read_xml r = Except.ok (v, r2)) ∧
    (∀ e, UniqueId.parse s = Except.error e →
      UniqueId.read_xml r =
        Except.error (r2.error (DecodeErrorKind.invalidPropertyData
          ("UniqueId") e.message))) := by
  have hrx : UniqueId.read_xml r =
      match UniqueId.parse s with
      | Except.ok v => Except.ok (v, r2)
      | Except.error e =>
        Except.error (r2.error (DecodeErrorKind.ofUniqueIdError e)) := by
    unfold UniqueId.read_xml
    rw [hrc]
  cases hp : UniqueId.parse s with
  | ok v =>
    rw [hp] at hrx
    refine ⟨?_, ?_, ?_⟩
    · constructor
      · intro _; exact ⟨v, rfl⟩
      · intro _; exact ⟨v, r2, hrx⟩
    · intro v2 hv2
      cases hv2
      exact hrx
    · intro e he
      cases he
  | error e =>
    rw [hp] at hrx
    refine ⟨?_, ?_, ?_⟩
    · constructor
      · rintro ⟨v, rest, hok⟩
        rw [hrx] at hok
        cases hok
      · rintro ⟨v, hv⟩
        cases hv
    · intro v hv
      cases hv
    · intro e2 he2
      cases he2
      exact hrx

/-- Witness for C2 at a concrete malformed stream. -/
theorem unique_id_read_xml_parse_errors_witness :
    UniqueId.read_xml
        { events := [XmlEvent.text ("zz"), XmlEvent.elemEnd ("UniqueId")]
          pos := 0 } =
      Except.error
        { kind := DecodeErrorKind.invalidPropertyData ("UniqueId")
            (UniqueIdError.message (UniqueIdError.invalidLength 2))
          pos := 1 } :=
  (unique_id_read_xml_parse_errors
      { events := [XmlEvent.text ("zz"), XmlEvent.elemEnd ("UniqueId")]
        pos := 0 }
      ("zz")
      { events := [XmlEvent.elemEnd ("UniqueId")], pos := 1 }
      rfl).2.2
    (UniqueIdError.invalidLength 2) rfl

end RbxDom
